import Mathlib

/-!
Verification of the whatsappbot960lite relay bot against its design document.

The repository contains several near-identical restatements of the same bot
(src/unnamed/part_000, part_001, part_002 and two variants concatenated in
src/index.js).  The definitions below are shallow embeddings of the relevant
handler logic of each variant; definitions whose name starts with `spec` are
instead written from the design document for comparison (refinement) purposes.
-/

/-! ## String helpers

JavaScript string operations modelled on `List Char`, kernel-computable. -/

/-- Models `s.split("@")[0]`: everything before the first `@` (the whole
string when no `@` occurs). -/
def beforeAt (s : String) : String :=
  String.mk (s.toList.takeWhile (fun c => c ≠ '@'))

/-- Whether `pat` occurs as a contiguous run inside the list. -/
def occursIn (pat : List Char) : List Char → Bool
  | [] => pat.isEmpty
  | a :: rest => pat.isPrefixOf (a :: rest) || occursIn pat rest

/-- Models `s.includes(sub)`. -/
def containsSub (s sub : String) : Bool :=
  occursIn sub.toList s.toList

/-- Models `s.endsWith(suffix)`. -/
def strEndsWith (s suffix : String) : Bool :=
  suffix.toList.isSuffixOf s.toList

/-- JavaScript truthiness of an optional string field (`undefined` and the
empty string are falsy). -/
def truthyStr : Option String → Bool
  | none => false
  | some s => !s.isEmpty

/-- The digits of a string, used by the design document wording "keeping only
its numeric portion". -/
def numericPortion (s : String) : String :=
  String.mk (s.toList.filter (fun c => c.isDigit))

/-! ## Inbound event data model

Shape of the WhatsApp events the handlers destructure: `msg.key` carries the
identifier, source jid, `fromMe` flag and the optional `senderPn` and
`participant` fields; `msg.message` is the optional payload with its two
possible text carriers. -/

structure MsgKey where
  id : String
  remoteJid : String
  fromMe : Bool
  senderPn : Option String
  participant : Option String
deriving DecidableEq

structure MsgContent where
  conversation : Option String
  extendedTextMessageText : Option String
deriving DecidableEq

structure WAMessage where
  key : MsgKey
  message : Option MsgContent
deriving DecidableEq

/-- Models `msg.message.conversation ?? msg.message.extendedTextMessage?.text ?? ""`
(nullish coalescing: an empty string present on `conversation` is kept). -/
def extractText (m : MsgContent) : String :=
  match m.conversation with
  | some t => t
  | none =>
    match m.extendedTextMessageText with
    | some t => t
    | none => ""

/-! ## Sender normalization

part_000 lines 152-166 and part_002 lines 110-124 (identical chain):
if the jid is not a group, use `senderPn` digits-before-`@` when present,
else rewrite `@s.whatsapp.net` and `@lid` jids to their before-`@` portion
plus `@c.us`, else leave the jid unchanged. -/

def normalizeJid (senderPn : Option String) (jid : String) : String :=
  if strEndsWith jid "@g.us" then jid
  else if truthyStr senderPn then beforeAt (senderPn.getD "") ++ "@c.us"
  else if containsSub jid "@s.whatsapp.net" then beforeAt jid ++ "@c.us"
  else if containsSub jid "@lid" then beforeAt jid ++ "@c.us"
  else jid

/-- index.js first variant, lines 131-134: only the `senderPn` rewrite exists;
without `senderPn` the source jid passes through entirely unchanged. -/
def normalizeJid_indexA (senderPn : Option String) (jid : String) : String :=
  if truthyStr senderPn && !strEndsWith jid "@g.us" then
    beforeAt (senderPn.getD "") ++ "@c.us"
  else jid

/-- The regex literal @s.whatsapp.net of part_001 line 120, where each dot is
a wildcard matching any character; `none` stands for a wildcard position. -/
def swnPat : List (Option Char) :=
  [some '@', some 's', none, some 'w', some 'h', some 'a', some 't', some 's',
   some 'a', some 'p', some 'p', none, some 'n', some 'e', some 't']

/-- Whether a dotted pattern matches a prefix of the list. -/
def matchesDotPat : List (Option Char) → List Char → Bool
  | [], _ => true
  | _ :: _, [] => false
  | p :: ps, c :: cs =>
    (match p with
     | none => true
     | some ch => ch == c) && matchesDotPat ps cs

/-- The global replace `jid.replace(/@s.whatsapp.net|@lid.*\x2fg, "@c.us")` of
part_001 line 120: scan left to right; at each position try the alternatives in
order — the dotted literal (15 characters, replaced and the scan resumed after
the consumed characters) then `@lid.*` (which consumes the whole remainder).
The replacement text is not rescanned.  The fuel argument is the remaining
input length, so it never runs out; it only makes the recursion structural. -/
def part001Scan : Nat → List Char → List Char
  | _, [] => []
  | 0, _ :: _ => []
  | fuel + 1, a :: rest =>
    if matchesDotPat swnPat (a :: rest) then
      ('@' :: 'c' :: '.' :: 'u' :: 's' :: []) ++ part001Scan fuel ((a :: rest).drop swnPat.length)
    else if ('@' :: 'l' :: 'i' :: 'd' :: []).isPrefixOf (a :: rest) then
      '@' :: 'c' :: '.' :: 'u' :: 's' :: []
    else a :: part001Scan fuel rest

/-- part_001 lines 116-121: `const pn = msg.key.senderPn?.split("@")[0]`, then
`jid = pn ? pn + "@c.us" : jid.replace(/@s.whatsapp.net|@lid.*\x2fg, "@c.us")`,
all guarded by the non-group test (note: here the truthiness test is on the
before-at portion of senderPn, not on the raw field as in part_000). -/
def normalizeJid_part001 (senderPn : Option String) (jid : String) : String :=
  if strEndsWith jid "@g.us" then jid
  else
    let pn := senderPn.map beforeAt
    if truthyStr pn then (pn.getD "") ++ "@c.us"
    else String.mk (part001Scan jid.toList.length jid.toList)

/-- part_000 normalization applied to a whole message key (the handler reads
only `senderPn` and `remoteJid`; the `participant` field is never consulted). -/
def normalizeSender_part000 (key : MsgKey) : String :=
  normalizeJid key.senderPn key.remoteJid

/-- part_001 normalization applied to a whole message key (again, the
`participant` field is never consulted). -/
def normalizeSender_part001 (key : MsgKey) : String :=
  normalizeJid_part001 key.senderPn key.remoteJid

/-- index.js first variant normalization applied to a whole message key. -/
def normalizeSender_indexA (key : MsgKey) : String :=
  normalizeJid_indexA key.senderPn key.remoteJid

/-- The normalization precedence exactly as the design document words it:
(a) the verified-phone-number field, (b) a participant identifier,
(c) the source identifier; identifier forms rewritten to the personal-contact
form by keeping only the numeric portion; group identifiers unchanged. -/
def specNormalizedSender (key : MsgKey) : String :=
  if strEndsWith key.remoteJid "@g.us" then key.remoteJid
  else if truthyStr key.senderPn then
    numericPortion (key.senderPn.getD "") ++ "@c.us"
  else if truthyStr key.participant then
    numericPortion (key.participant.getD "") ++ "@c.us"
  else if containsSub key.remoteJid "@s.whatsapp.net" || containsSub key.remoteJid "@lid" then
    numericPortion key.remoteJid ++ "@c.us"
  else key.remoteJid

/-- The document precedence with the participant clause removed, which is what
the code actually implements (amended form of claim C1). -/
def specNormalizedSenderNoParticipant (key : MsgKey) : String :=
  if strEndsWith key.remoteJid "@g.us" then key.remoteJid
  else if truthyStr key.senderPn then
    numericPortion (key.senderPn.getD "") ++ "@c.us"
  else if containsSub key.remoteJid "@s.whatsapp.net" || containsSub key.remoteJid "@lid" then
    numericPortion key.remoteJid ++ "@c.us"
  else key.remoteJid

/-- Counterexample event for C1: no verified-phone field, a participant field
present, and a standard user jid as the source. -/
def c1Key : MsgKey :=
  { id := "MSG1", remoteJid := "111@s.whatsapp.net", fromMe := false,
    senderPn := none, participant := some "222@s.whatsapp.net" }

/-- C1 counterexample: with no verified-phone field and a participant present,
the design precedence demands the participant identity (222@c.us) but the code
ignores the participant field and normalizes the source identifier (111@c.us).
No variant of the code reads the participant field at all. -/
theorem C1_counterexample :
    normalizeSender_part000 c1Key = "111@c.us" ∧
    specNormalizedSender c1Key = "222@c.us" ∧
    normalizeSender_part000 c1Key ≠ specNormalizedSender c1Key := by
  refine ⟨by decide, by decide, by decide⟩

/-- C1 amended: the precedence is (a) the verified-phone field, then directly
(b) the source identifier — there is no participant fallback.  Part 1: on
events whose identifiers have their numeric portion exactly as their before-at
portion, the part_000 chain agrees with the amended document precedence.
Part 2 (unconditional): group identifiers pass through unchanged in part_000,
part_001 and the first index.js variant.  Part 3 (unconditional): with no
verified-phone field, a non-internal source identifier (no @s.whatsapp.net, no
@lid) passes through part_000 unchanged.  Part 4 (unconditional): the first
index.js variant passes every source identifier through unchanged whenever the
verified-phone field is absent.  Part 5: the part_001 regex rewrite agrees
with the suffix-only rewriting on the document test identifiers. -/
theorem C1_amended_precedence :
    (∀ key : MsgKey,
      (truthyStr key.senderPn = true →
        beforeAt (key.senderPn.getD "") = numericPortion (key.senderPn.getD "")) →
      beforeAt key.remoteJid = numericPortion key.remoteJid →
      normalizeSender_part000 key = specNormalizedSenderNoParticipant key) ∧
    (∀ key : MsgKey, strEndsWith key.remoteJid "@g.us" = true →
      normalizeSender_part000 key = key.remoteJid ∧
      normalizeSender_part001 key = key.remoteJid ∧
      normalizeSender_indexA key = key.remoteJid) ∧
    (∀ key : MsgKey, truthyStr key.senderPn = false →
      containsSub key.remoteJid "@s.whatsapp.net" = false →
      containsSub key.remoteJid "@lid" = false →
      normalizeSender_part000 key = key.remoteJid) ∧
    (∀ key : MsgKey, truthyStr key.senderPn = false →
      normalizeSender_indexA key = key.remoteJid) ∧
    (normalizeJid_part001 none "5511987654321@lid" = "5511987654321@c.us" ∧
     normalizeJid_part001 none "551187654321@s.whatsapp.net" = "551187654321@c.us" ∧
     normalizeJid_part001 none "111@s.whatsapp.net" = "111@c.us") := by
  refine ⟨?_, ?_, ?_, ?_, by decide, by decide, by decide⟩
  · intro key hpn hjid
    unfold normalizeSender_part000 specNormalizedSenderNoParticipant normalizeJid
    by_cases hg : strEndsWith key.remoteJid "@g.us" = true
    · simp [hg]
    · simp only [Bool.not_eq_true] at hg
      by_cases hp : truthyStr key.senderPn = true
      · simp [hg, hp, hpn hp]
      · simp only [Bool.not_eq_true] at hp
        by_cases hs : containsSub key.remoteJid "@s.whatsapp.net" = true
        · simp [hg, hp, hs, hjid]
        · simp only [Bool.not_eq_true] at hs
          by_cases hl : containsSub key.remoteJid "@lid" = true
          · simp [hg, hp, hs, hl, hjid]
          · simp only [Bool.not_eq_true] at hl
            simp [hg, hp, hs, hl]
  · intro key hg
    refine ⟨?_, ?_, ?_⟩
    · unfold normalizeSender_part000 normalizeJid
      simp [hg]
    · unfold normalizeSender_part001 normalizeJid_part001
      simp [hg]
    · unfold normalizeSender_indexA normalizeJid_indexA
      simp [hg]
  · intro key hp hs hl
    unfold normalizeSender_part000 normalizeJid
    by_cases hg : strEndsWith key.remoteJid "@g.us" = true
    · simp [hg]
    · simp [hg, hp, hs, hl]
  · intro key hp
    unfold normalizeSender_indexA normalizeJid_indexA
    simp [hp]

/-- Concrete event carrying a verified-phone field, for the C1 witness. -/
def c1SenderPnKey : MsgKey :=
  { id := "m", remoteJid := "111@s.whatsapp.net", fromMe := false,
    senderPn := some "333@s.whatsapp.net", participant := none }

/-- Concrete event from a group chat, for the C1 witness. -/
def c1GroupKey : MsgKey :=
  { id := "g", remoteJid := "group123@g.us", fromMe := false,
    senderPn := none, participant := none }

/-- Concrete event with a non-numeric, non-internal source identifier and no
verified-phone field, for the C1 witness. -/
def c1PlainKey : MsgKey :=
  { id := "p", remoteJid := "status@broadcast", fromMe := false,
    senderPn := none, participant := none }

/-- Witness instantiating C1_amended_precedence: part 1 at an event with a
verified-phone field, part 2 at the group identifier (including the spec test
value group123@g.us), parts 3 and 4 at a non-numeric plain identifier. -/
theorem C1_amended_precedence_witness :
    normalizeSender_part000 c1SenderPnKey = specNormalizedSenderNoParticipant c1SenderPnKey ∧
    normalizeSender_part000 c1GroupKey = "group123@g.us" ∧
    normalizeSender_part001 c1GroupKey = "group123@g.us" ∧
    normalizeSender_indexA c1GroupKey = "group123@g.us" ∧
    normalizeSender_part000 c1PlainKey = "status@broadcast" ∧
    normalizeSender_indexA c1PlainKey = "status@broadcast" :=
  ⟨C1_amended_precedence.1 c1SenderPnKey (fun _ => by decide) (by decide),
   (C1_amended_precedence.2.1 c1GroupKey (by decide)).1,
   (C1_amended_precedence.2.1 c1GroupKey (by decide)).2.1,
   (C1_amended_precedence.2.1 c1GroupKey (by decide)).2.2,
   C1_amended_precedence.2.2.1 c1PlainKey (by decide) (by decide) (by decide),
   C1_amended_precedence.2.2.2.1 c1PlainKey (by decide)⟩

/-! ## C7: no regional numbering correction

The design document claims a Brazilian missing-mobile-digit insertion.  No
variant of the code contains any digit insertion: normalization only replaces
the suffix after `@`. -/

/-- C7 counterexample: the 12-digit Brazilian-pattern number passes through
with only the suffix rewritten; the mandatory mobile digit the claim requires
is never inserted. -/
theorem C7_counterexample :
    normalizeJid none "551187654321@s.whatsapp.net" = "551187654321@c.us" ∧
    normalizeJid none "551187654321@s.whatsapp.net" ≠ "5511987654321@c.us" := by
  refine ⟨by decide, by decide⟩

/-- C7 amended: no regional numbering correction exists; on the three inputs of
the design document test, normalization rewrites only the identifier suffix —
the internal form keeps its digits, the 12-digit number keeps exactly its
12 digits (no digit inserted), and the group identifier is unchanged. -/
theorem C7_amended_no_correction :
    normalizeJid none "5511987654321@lid" = "5511987654321@c.us" ∧
    normalizeJid none "551187654321@s.whatsapp.net" = "551187654321@c.us" ∧
    normalizeJid none "group123@g.us" = "group123@g.us" := by
  refine ⟨by decide, by decide, by decide⟩

/-! ## Deduplication window and the part_000 message handler

part_000 lines 18-20 and 131-150: a process-wide set of processed message
identifiers with capacity 500, checked before the payload test and filled
before the text test, with the oldest-inserted identifier evicted on overflow.
The cache is modelled as a list in insertion order, oldest first. -/

def CACHE_LIMIT : Nat := 500

/-- Models `processedMessages.add(msgId)` followed by
`if (processedMessages.size > CACHE_LIMIT) delete(values().next().value)`:
append the fresh identifier, then drop the oldest entry when over capacity. -/
def pushBounded (cache : List String) (id : String) : List String :=
  if CACHE_LIMIT < (cache ++ [id]).length then (cache ++ [id]).tail else cache ++ [id]

inductive HandlerResult where
  | dropDuplicate
  | dropNoContent
  | dropNoText
  | relay (jid text : String)
deriving DecidableEq

/-- One iteration of the part_000 messages.upsert loop (lines 131-192):
duplicate check, payload and echo check, insertion into the dedup window with
FIFO eviction, text extraction, then normalization and relay. -/
def processMsg_part000 (cache : List String) (msg : WAMessage) :
    List String × HandlerResult :=
  if msg.key.id ∈ cache then (cache, .dropDuplicate)
  else
    match msg.message with
    | none => (cache, .dropNoContent)
    | some content =>
      if msg.key.fromMe then (cache, .dropNoContent)
      else
        let cache1 := pushBounded cache msg.key.id
        let text := extractText content
        if text = "" then (cache1, .dropNoText)
        else (cache1, .relay (normalizeJid msg.key.senderPn msg.key.remoteJid) text)

/-- Folding the part_000 handler over a delivered batch, tracking the window. -/
def runBatch (cache : List String) (msgs : List WAMessage) : List String :=
  msgs.foldl (fun c m => (processMsg_part000 c m).1) cache

/-- A well-formed personal text message with the given identifier. -/
def mkTextMsg (id : String) : WAMessage :=
  { key := { id := id, remoteJid := "111@s.whatsapp.net", fromMe := false,
             senderPn := none, participant := none },
    message := some { conversation := some "hello", extendedTextMessageText := none } }

theorem norm_111 : normalizeJid none "111@s.whatsapp.net" = "111@c.us" := by decide

/-- The freshly inserted identifier is always a member of the updated window. -/
theorem pushBounded_mem (cache : List String) (id : String) :
    id ∈ pushBounded cache id := by
  unfold pushBounded
  by_cases h : CACHE_LIMIT < (cache ++ [id]).length
  · rw [if_pos h]
    cases cache with
    | nil => simp [CACHE_LIMIT] at h
    | cons a rest => simp
  · rw [if_neg h]
    simp

/-- Insertion never grows the window beyond capacity. -/
theorem pushBounded_length (cache : List String) (id : String)
    (h : cache.length ≤ CACHE_LIMIT) :
    (pushBounded cache id).length ≤ CACHE_LIMIT := by
  unfold pushBounded
  by_cases hc : CACHE_LIMIT < (cache ++ [id]).length
  · rw [if_pos hc]
    simp only [List.length_tail, List.length_append, List.length_singleton]
    omega
  · rw [if_neg hc]
    simp only [List.length_append, List.length_singleton] at hc ⊢
    omega

/-- Below capacity, insertion is a plain append. -/
theorem pushBounded_small (cache : List String) (id : String)
    (h : cache.length < CACHE_LIMIT) :
    pushBounded cache id = cache ++ [id] := by
  have hc : ¬ CACHE_LIMIT < (cache ++ [id]).length := by
    simp only [List.length_append, List.length_singleton]
    omega
  unfold pushBounded
  rw [if_neg hc]

/-- At capacity, insertion evicts exactly the oldest entry. -/
theorem pushBounded_full (cache : List String) (id : String)
    (h : cache.length = CACHE_LIMIT) :
    pushBounded cache id = (cache ++ [id]).tail := by
  have hc : CACHE_LIMIT < (cache ++ [id]).length := by
    simp only [List.length_append, List.length_singleton]
    omega
  unfold pushBounded
  rw [if_pos hc]

/-- An identifier already present in the window is dropped as a duplicate and
the window is untouched, whatever the rest of the event carries. -/
theorem processMsg_dup (cache : List String) (msg : WAMessage)
    (h : msg.key.id ∈ cache) :
    processMsg_part000 cache msg = (cache, .dropDuplicate) := by
  unfold processMsg_part000
  simp [h]

/-- A fresh well-formed text message is admitted and inserted. -/
theorem processMsg_fresh (cache : List String) (id : String) (h : id ∉ cache) :
    processMsg_part000 cache (mkTextMsg id) =
      (pushBounded cache id, .relay "111@c.us" "hello") := by
  unfold processMsg_part000
  simp [mkTextMsg, extractText, h, norm_111]

/-- Processing any event preserves the capacity bound of the window. -/
theorem processMsg_part000_length (cache : List String) (msg : WAMessage)
    (h : cache.length ≤ CACHE_LIMIT) :
    ((processMsg_part000 cache msg).1).length ≤ CACHE_LIMIT := by
  unfold processMsg_part000
  by_cases hdup : msg.key.id ∈ cache
  · simpa [hdup] using h
  · cases hm : msg.message with
    | none => simpa [hdup, hm] using h
    | some content =>
      by_cases hme : msg.key.fromMe = true
      · simpa [hdup, hm, hme] using h
      · by_cases ht : extractText content = ""
        · simpa [hdup, hm, hme, ht] using pushBounded_length cache msg.key.id h
        · simpa [hdup, hm, hme, ht] using pushBounded_length cache msg.key.id h

/-- While total volume stays within capacity, distinct fresh identifiers
accumulate in pure insertion order with no eviction. -/
theorem runBatch_fill (ids : List String) : ∀ cache : List String,
    (cache ++ ids).Nodup → cache.length + ids.length ≤ CACHE_LIMIT →
    runBatch cache (ids.map mkTextMsg) = cache ++ ids := by
  induction ids with
  | nil => intro cache _ _; simp [runBatch]
  | cons id rest ih =>
    intro cache hnd hlen
    have hmid : (id :: (cache ++ rest)).Nodup := List.nodup_middle.mp hnd
    have hid : id ∉ cache := fun hc =>
      (List.nodup_cons.mp hmid).1 (List.mem_append_left rest hc)
    have hlt : cache.length < CACHE_LIMIT := by
      simp at hlen; omega
    have hstep : (processMsg_part000 cache (mkTextMsg id)).1 = cache ++ [id] := by
      rw [processMsg_fresh cache id hid, pushBounded_small cache id hlt]
    have hfold : runBatch cache ((id :: rest).map mkTextMsg)
        = runBatch (cache ++ [id]) (rest.map mkTextMsg) := by
      simp [runBatch, hstep]
    rw [hfold, ih (cache ++ [id]) (by simpa using hnd) (by simp at hlen ⊢; omega)]
    simp

/-- Processing one more distinct identifier than the capacity evicts exactly
the oldest entry: the final window is the tail of the full arrival order. -/
theorem runBatch_evict (ids : List String) : ∀ cache : List String,
    (cache ++ ids).Nodup → cache.length + ids.length = CACHE_LIMIT + 1 →
    cache.length ≤ CACHE_LIMIT →
    runBatch cache (ids.map mkTextMsg) = (cache ++ ids).tail := by
  induction ids with
  | nil =>
    intro cache _ hlen hle
    simp at hlen
    omega
  | cons id rest ih =>
    intro cache hnd hlen hle
    have hmid : (id :: (cache ++ rest)).Nodup := List.nodup_middle.mp hnd
    have hid : id ∉ cache := fun hc =>
      (List.nodup_cons.mp hmid).1 (List.mem_append_left rest hc)
    rcases Nat.lt_or_ge cache.length CACHE_LIMIT with hlt | hge
    · have hstep : (processMsg_part000 cache (mkTextMsg id)).1 = cache ++ [id] := by
        rw [processMsg_fresh cache id hid, pushBounded_small cache id hlt]
      have hfold : runBatch cache ((id :: rest).map mkTextMsg)
          = runBatch (cache ++ [id]) (rest.map mkTextMsg) := by
        simp [runBatch, hstep]
      rw [hfold, ih (cache ++ [id]) (by simpa using hnd)
        (by simp at hlen ⊢; omega) (by simp; omega)]
      simp
    · have hcl : cache.length = CACHE_LIMIT := Nat.le_antisymm hle hge
      have hrest : rest = [] := by
        simp at hlen
        have : rest.length = 0 := by omega
        exact List.length_eq_zero.mp this
      subst hrest
      have hstep : (processMsg_part000 cache (mkTextMsg id)).1 = (cache ++ [id]).tail := by
        rw [processMsg_fresh cache id hid, pushBounded_full cache id hcl]
      simp [runBatch, hstep]

/-- C2: the deduplication window is a bounded insertion-ordered set of message
identifiers with capacity 500: (1) processing any event from a within-capacity
window leaves the window within capacity; (2) the same identifier arriving
twice in succession is admitted exactly once — the first arrival relays, the
second is dropped as a duplicate and leaves the window unchanged; (3) after
501 distinct identifiers, the earliest-inserted one has been evicted (strict
FIFO: the final window is the tail of the arrival order) and a later repeat of
it is admitted again. -/
theorem C2_dedup_window :
    (∀ (cache : List String) (msg : WAMessage), cache.length ≤ CACHE_LIMIT →
      ((processMsg_part000 cache msg).1).length ≤ CACHE_LIMIT) ∧
    (∀ (cache : List String) (id : String), id ∉ cache →
      (processMsg_part000 cache (mkTextMsg id)).2 = .relay "111@c.us" "hello" ∧
      (processMsg_part000 (processMsg_part000 cache (mkTextMsg id)).1 (mkTextMsg id)).2
        = .dropDuplicate ∧
      (processMsg_part000 (processMsg_part000 cache (mkTextMsg id)).1 (mkTextMsg id)).1
        = (processMsg_part000 cache (mkTextMsg id)).1) ∧
    (∀ ids : List String, ids.Nodup → ids.length = CACHE_LIMIT + 1 →
      runBatch [] (ids.map mkTextMsg) = ids.tail ∧
      (processMsg_part000 (runBatch [] (ids.map mkTextMsg)) (mkTextMsg (ids.headD ""))).2
        = .relay "111@c.us" "hello") := by
  refine ⟨processMsg_part000_length, ?_, ?_⟩
  · intro cache id h
    have h1 := processMsg_fresh cache id h
    have hmem : id ∈ (processMsg_part000 cache (mkTextMsg id)).1 := by
      rw [h1]
      exact pushBounded_mem cache id
    have hdup :
        processMsg_part000 (processMsg_part000 cache (mkTextMsg id)).1 (mkTextMsg id)
          = ((processMsg_part000 cache (mkTextMsg id)).1, .dropDuplicate) :=
      processMsg_dup _ (mkTextMsg id) hmem
    exact ⟨by rw [h1], by rw [hdup], by rw [hdup]⟩
  · intro ids hnd hlen
    have hrun : runBatch [] (ids.map mkTextMsg) = ids.tail := by
      have := runBatch_evict ids [] (by simpa using hnd)
        (by simpa using hlen) (by simp)
      simpa using this
    refine ⟨hrun, ?_⟩
    cases ids with
    | nil => simp [CACHE_LIMIT] at hlen
    | cons h t =>
      have hht : h ∉ t := (List.nodup_cons.mp hnd).1
      rw [hrun]
      simp only [List.headD_cons, List.tail_cons]
      rw [processMsg_fresh t h hht]

/-- Concrete 501 pairwise-distinct identifiers for the C2 witness. -/
def witIds : List String :=
  (List.range (CACHE_LIMIT + 1)).map (fun n => String.mk (List.replicate n 'a'))

theorem witIds_nodup : witIds.Nodup := by
  refine List.Nodup.map ?_ (List.nodup_range _)
  intro m n hmn
  have h1 : List.replicate m 'a' = List.replicate n 'a' := congrArg String.data hmn
  have h2 := congrArg List.length h1
  simpa using h2

theorem witIds_length : witIds.length = CACHE_LIMIT + 1 := by
  simp [witIds]

/-- Witness instantiating every part of C2_dedup_window at concrete inputs:
the empty window, the identifier "a", and 501 concrete distinct identifiers. -/
theorem C2_dedup_window_witness :
    ((processMsg_part000 [] (mkTextMsg "a")).1).length ≤ CACHE_LIMIT ∧
    (processMsg_part000 [] (mkTextMsg "a")).2 = .relay "111@c.us" "hello" ∧
    (processMsg_part000 (processMsg_part000 [] (mkTextMsg "a")).1 (mkTextMsg "a")).2
      = .dropDuplicate ∧
    runBatch [] (witIds.map mkTextMsg) = witIds.tail :=
  ⟨C2_dedup_window.1 [] (mkTextMsg "a") (by simp),
   (C2_dedup_window.2.1 [] "a" (by simp)).1,
   (C2_dedup_window.2.1 [] "a" (by simp)).2.1,
   (C2_dedup_window.2.2 witIds witIds_nodup witIds_length).1⟩

/-- C10: the identifier enters the deduplication window before the
textual-payload check — an event with a fresh identifier, a present payload and
an empty text is dropped for lack of text yet still consumes a dedup slot, and
any later event with the same identifier (whatever its text) is dropped as a
duplicate, never relayed. -/
theorem C10_dedup_slot_before_text (cache : List String) (m m2 : WAMessage)
    (c : MsgContent)
    (hfresh : m.key.id ∉ cache)
    (hmsg : m.message = some c)
    (hme : m.key.fromMe = false)
    (htext : extractText c = "")
    (hid2 : m2.key.id = m.key.id) :
    (processMsg_part000 cache m).2 = .dropNoText ∧
    m.key.id ∈ (processMsg_part000 cache m).1 ∧
    (processMsg_part000 (processMsg_part000 cache m).1 m2).2 = .dropDuplicate := by
  have hfst : processMsg_part000 cache m
      = (pushBounded cache m.key.id, .dropNoText) := by
    unfold processMsg_part000
    simp [hfresh, hmsg, hme, htext]
  refine ⟨by rw [hfst], ?_, ?_⟩
  · rw [hfst]
    exact pushBounded_mem cache m.key.id
  · have hmem : m2.key.id ∈ (processMsg_part000 cache m).1 := by
      rw [hfst, hid2]
      exact pushBounded_mem cache m.key.id
    rw [processMsg_dup _ m2 hmem]

/-- A fresh-id event that carries a non-text payload (no conversation text,
no extended text), as delivered for media messages. -/
def mediaMsg : WAMessage :=
  { key := { id := "M1", remoteJid := "111@s.whatsapp.net", fromMe := false,
             senderPn := none, participant := none },
    message := some { conversation := none, extendedTextMessageText := none } }

/-- A redelivery of the same identifier, this time carrying text. -/
def mediaMsgRedelivered : WAMessage :=
  { key := { id := "M1", remoteJid := "111@s.whatsapp.net", fromMe := false,
             senderPn := none, participant := none },
    message := some { conversation := some "hello", extendedTextMessageText := none } }

/-- Witness instantiating C10 at the concrete media message and its
text-carrying redelivery. -/
theorem C10_dedup_slot_before_text_witness :
    (processMsg_part000 [] mediaMsg).2 = .dropNoText ∧
    (processMsg_part000 (processMsg_part000 [] mediaMsg).1 mediaMsgRedelivered).2
      = .dropDuplicate :=
  ⟨(C10_dedup_slot_before_text [] mediaMsg mediaMsgRedelivered
      { conversation := none, extendedTextMessageText := none }
      (by simp) rfl rfl rfl rfl).1,
   (C10_dedup_slot_before_text [] mediaMsg mediaMsgRedelivered
      { conversation := none, extendedTextMessageText := none }
      (by simp) rfl rfl rfl rfl).2.2⟩

/-! ## C6: admission and the broadcast channel -/

/-- One iteration of the part_002 messages.upsert loop (lines 100-153; the
first index.js variant, lines 121-159, has the same admission checks but the
shorter senderPn-only normalization): no dedup window; drop on missing
payload, echo, or empty text; otherwise normalize and relay.  Returns the
relayed (from, message) pair, or none when the event is dropped. -/
def processMsg_part002 (msg : WAMessage) : Option (String × String) :=
  match msg.message with
  | none => none
  | some content =>
    if msg.key.fromMe then none
    else
      let text := extractText content
      if text = "" then none
      else some (normalizeJid msg.key.senderPn msg.key.remoteJid, text)

/-- A broadcast/system-channel event carrying text, not self-originated. -/
def broadcastMsg : WAMessage :=
  { key := { id := "B1", remoteJid := "status@broadcast", fromMe := false,
             senderPn := none, participant := none },
    message := some { conversation := some "hi", extendedTextMessageText := none } }

/-- C6 evaluated at the failing input: a broadcast-channel event with text is
admitted and relayed by the part_002 handler and by the part_000 handler.  The
only broadcast check in the repository (part_000 line 126) stands outside the
messages.upsert handler and references a variable that is not in scope there,
so no handler ever drops broadcast/system-channel events. -/
theorem C6_broadcast_relayed :
    processMsg_part002 broadcastMsg = some ("status@broadcast", "hi") ∧
    (processMsg_part000 [] broadcastMsg).2 = .relay "status@broadcast" "hi" := by
  refine ⟨by decide, by decide⟩

/-! ## Connection close handling (C3)

Each variant registers a connection.update handler; on close it compares the
status code with the logged-out classification (Baileys DisconnectReason,
value 401) and either schedules a reconnect or stops. -/

def DisconnectReason_loggedOut : Nat := 401

inductive CloseAction where
  | scheduleRetry (delayMs : Nat)
  | loggedOutNoRetry
deriving DecidableEq

/-- part_000 lines 113-122: on a non-logged-out close,
setTimeout(startBot, 5000); on logged-out, no retry. -/
def handleClose_part000 (statusCode : Option Nat) : CloseAction :=
  if statusCode ≠ some DisconnectReason_loggedOut then .scheduleRetry 5000
  else .loggedOutNoRetry

/-- part_001 lines 95-100: setTimeout(startBot, 4000). -/
def handleClose_part001 (statusCode : Option Nat) : CloseAction :=
  if statusCode ≠ some DisconnectReason_loggedOut then .scheduleRetry 4000
  else .loggedOutNoRetry

/-- part_002 lines 83-92: setTimeout(startBot, 5000). -/
def handleClose_part002 (statusCode : Option Nat) : CloseAction :=
  if statusCode ≠ some DisconnectReason_loggedOut then .scheduleRetry 5000
  else .loggedOutNoRetry

/-- index.js first variant lines 104-113: setTimeout(startBot, 5000). -/
def handleClose_indexA (statusCode : Option Nat) : CloseAction :=
  if statusCode ≠ some DisconnectReason_loggedOut then .scheduleRetry 5000
  else .loggedOutNoRetry

/-- index.js second variant lines 292-296: startBot() is invoked directly with
no setTimeout at all; the immediate synchronous retry is modelled as a retry
scheduled with zero delay. -/
def handleClose_indexB (statusCode : Option Nat) : CloseAction :=
  if statusCode ≠ some DisconnectReason_loggedOut then .scheduleRetry 0
  else .loggedOutNoRetry

/-- C3 counterexample: in the index.js second variant, a non-logged-out close
(status code 428) triggers an immediate reconnect with zero delay, which does
not lie in the 4-5 second (4000-5000 ms) backoff window the claim requires for
every connection-close event. -/
theorem C3_counterexample :
    handleClose_indexB (some 428) = .scheduleRetry 0 ∧ ¬ 4000 ≤ (0 : Nat) := by
  refine ⟨by decide, by decide⟩

/-- C3 amended: on a logged-out close every variant schedules no retry; on any
other close every variant schedules exactly one retry — after 5000 ms in
part_000, part_002 and the first index.js variant, after 4000 ms in part_001
(all inside the 4-5 second window), but immediately (zero delay, no backoff)
in the second index.js variant. -/
theorem C3_amended_close_behavior (code : Option Nat) :
    (code = some DisconnectReason_loggedOut →
      handleClose_part000 code = .loggedOutNoRetry ∧
      handleClose_part001 code = .loggedOutNoRetry ∧
      handleClose_part002 code = .loggedOutNoRetry ∧
      handleClose_indexA code = .loggedOutNoRetry ∧
      handleClose_indexB code = .loggedOutNoRetry) ∧
    (code ≠ some DisconnectReason_loggedOut →
      handleClose_part000 code = .scheduleRetry 5000 ∧
      handleClose_part001 code = .scheduleRetry 4000 ∧
      handleClose_part002 code = .scheduleRetry 5000 ∧
      handleClose_indexA code = .scheduleRetry 5000 ∧
      handleClose_indexB code = .scheduleRetry 0 ∧
      (4000 ≤ 4000 ∧ 4000 ≤ 5000 ∧ 5000 ≤ 5000)) := by
  constructor
  · intro h
    refine ⟨?_, ?_, ?_, ?_, ?_⟩ <;>
      simp [handleClose_part000, handleClose_part001, handleClose_part002,
        handleClose_indexA, handleClose_indexB, h]
  · intro h
    refine ⟨?_, ?_, ?_, ?_, ?_, by omega⟩ <;>
      simp [handleClose_part000, handleClose_part001, handleClose_part002,
        handleClose_indexA, handleClose_indexB, h]

/-- Witness instantiating C3_amended_close_behavior at the logged-out code 401
and at the ordinary close code 428. -/
theorem C3_amended_close_behavior_witness :
    handleClose_part000 (some 401) = .loggedOutNoRetry ∧
    handleClose_part000 (some 428) = .scheduleRetry 5000 ∧
    handleClose_indexB (some 428) = .scheduleRetry 0 :=
  ⟨((C3_amended_close_behavior (some 401)).1 (by decide)).1,
   ((C3_amended_close_behavior (some 428)).2 (by decide)).1,
   ((C3_amended_close_behavior (some 428)).2 (by decide)).2.2.2.2.1⟩

/-! ## Webhook response handling (C4, C5)

The webhook response body is parsed as JSON; `none` at the Option level stands
for a parse failure, in which case the handlers keep the initial empty object. -/

inductive JsVal where
  | null
  | bool (b : Bool)
  | num (n : Int)
  | str (s : String)
  | arr (elems : List JsVal)
  | obj (fields : List (String × JsVal))

def jsonLookup : List (String × JsVal) → String → Option JsVal
  | [], _ => none
  | (k, v) :: rest, key => if k = key then some v else jsonLookup rest key

/-- Models `x?.field`: undefined (none) unless x is an object carrying it. -/
def jsGetField (j : JsVal) (key : String) : Option JsVal :=
  match j with
  | .obj fs => jsonLookup fs key
  | _ => none

/-- JS nullish test on a possibly-absent value (undefined or null). -/
def jsonNullish : Option JsVal → Bool
  | none => true
  | some .null => true
  | some _ => false

/-- JS truthiness of a possibly-absent JSON value. -/
def jsonTruthy : Option JsVal → Bool
  | none => false
  | some .null => false
  | some (.bool b) => b
  | some (.num n) => n != 0
  | some (.str s) => !s.isEmpty
  | some (.arr _) => true
  | some (.obj _) => true

/-- Models `if (Array.isArray(replyData)) replyData = replyData[0]` (an empty
sequence leaves undefined, which behaves exactly like none downstream). -/
def unwrapSeq : JsVal → Option JsVal
  | .arr es => es.head?
  | j => some j

/-- part_000 lines 177-180 (part_002 lines 135-140 identical): unwrap a
sequence body to its first element, then `replyData?.Reply ?? replyData?.reply`
(nullish coalescing). -/
def extractReply_part000 (parsed : Option JsVal) : Option JsVal :=
  let d := unwrapSeq (parsed.getD (.obj []))
  let cap := d.bind (fun j => jsGetField j "Reply")
  if jsonNullish cap then d.bind (fun j => jsGetField j "reply") else cap

/-- part_001 lines 134-138: unwrap a sequence body, then
`data?.Reply || data?.reply` (JS truthiness, not nullish coalescing). -/
def extractReply_part001 (parsed : Option JsVal) : Option JsVal :=
  let d := unwrapSeq (parsed.getD (.obj []))
  let cap := d.bind (fun j => jsGetField j "Reply")
  if jsonTruthy cap then cap else d.bind (fun j => jsGetField j "reply")

/-- index.js first variant lines 145-150: the same chain as part_000. -/
def extractReply_indexA (parsed : Option JsVal) : Option JsVal :=
  extractReply_part000 parsed

/-- index.js second variant lines 328-331: NO sequence unwrap, then
`replyData?.reply || replyData?.Reply` (truthiness, lowercase first). -/
def extractReply_indexB (parsed : Option JsVal) : Option JsVal :=
  let d := parsed.getD (.obj [])
  let low := jsGetField d "reply"
  if jsonTruthy low then low else jsGetField d "Reply"

/-- Math.random() modelled as k / 2^53 for k < 2^53 (the double-precision
grid the JS generator draws from); Math.floor of the scaled draw is then
exact natural division. -/
def RAND_DENOM : Nat := 2 ^ 53

/-- part_000 line 183 (part_002 line 143 identical):
Math.floor(Math.random() * (20000 - 10000 + 1)) + 10000. -/
def delay_part000 (k : Nat) : Nat := k * (20000 - 10000 + 1) / RAND_DENOM + 10000

/-- part_001 line 140: Math.floor(Math.random() * 11000) + 9000. -/
def delay_part001 (k : Nat) : Nat := k * 11000 / RAND_DENOM + 9000

/-- index.js second variant line 334: 10000 + Math.random() * 10000, handed to
setTimeout whose effective integral delay is the floor. -/
def delay_indexB (k : Nat) : Nat := 10000 + k * 10000 / RAND_DENOM

inductive SendAction where
  | send (target : String) (payload : JsVal) (delayMs : Nat)

/-- part_000 lines 182-188: when the extracted reply is truthy, exactly one
send of it to the normalized jid is scheduled after the random delay. -/
def replyActions_part000 (jid : String) (parsed : Option JsVal) (k : Nat) :
    List SendAction :=
  let reply := extractReply_part000 parsed
  if jsonTruthy reply then [.send jid (reply.getD .null) (delay_part000 k)] else []

/-- part_001 lines 139-142: same shape, with the part_001 delay. -/
def replyActions_part001 (jid : String) (parsed : Option JsVal) (k : Nat) :
    List SendAction :=
  let reply := extractReply_part001 parsed
  if jsonTruthy reply then [.send jid (reply.getD .null) (delay_part001 k)] else []

/-- index.js first variant lines 151-154: the send is awaited immediately with
no setTimeout at all — a zero-delay send. -/
def replyActions_indexA (jid : String) (parsed : Option JsVal) : List SendAction :=
  let reply := extractReply_indexA parsed
  if jsonTruthy reply then [.send jid (reply.getD .null) 0] else []

/-- index.js second variant lines 333-339. -/
def replyActions_indexB (jid : String) (parsed : Option JsVal) (k : Nat) :
    List SendAction :=
  let reply := extractReply_indexB parsed
  if jsonTruthy reply then [.send jid (reply.getD .null) (delay_indexB k)] else []

/-- C4 counterexample: in the index.js first variant (the lines the claim
cites), a webhook response containing a reply is sent back immediately — the
single send carries zero delay, not a time strictly between 10 and 20 seconds
after relay. -/
theorem C4_counterexample :
    replyActions_indexA "111@c.us" (some (.obj [("reply", .str "hi")]))
      = [.send "111@c.us" (.str "hi") 0] ∧
    ¬ 10000 < (0 : Nat) := by
  refine ⟨rfl, by decide⟩

/-- Every scaled random draw floors below its scale. -/
theorem scaled_rand_lt (k m : Nat) (hk : k < RAND_DENOM) (hm : 0 < m) :
    k * m / RAND_DENOM < m := by
  have h1 : k * m < RAND_DENOM * m := Nat.mul_lt_mul_of_pos_right hk hm
  exact Nat.div_lt_of_lt_mul h1

/-- C4 amended: each variant performs exactly one send per truthy reply, but
the delay windows differ: part_000/part_002 draw from [10000, 20000] ms
inclusive (not strictly between), part_001 draws from [9000, 19999] ms (it can
undershoot 10 s by up to a second), the second index.js variant draws from
[10000, 20000) ms, and the first index.js variant always sends immediately
with zero delay. -/
theorem C4_amended_delay_window :
    (∀ (jid : String) (parsed : Option JsVal) (k : Nat),
      jsonTruthy (extractReply_part000 parsed) = true →
      replyActions_part000 jid parsed k
        = [.send jid ((extractReply_part000 parsed).getD .null) (delay_part000 k)]) ∧
    (∀ k : Nat, k < RAND_DENOM →
      (10000 ≤ delay_part000 k ∧ delay_part000 k ≤ 20000) ∧
      (9000 ≤ delay_part001 k ∧ delay_part001 k ≤ 19999) ∧
      (10000 ≤ delay_indexB k ∧ delay_indexB k < 20000)) ∧
    (∀ (jid : String) (parsed : Option JsVal),
      jsonTruthy (extractReply_indexA parsed) = true →
      replyActions_indexA jid parsed
        = [.send jid ((extractReply_indexA parsed).getD .null) 0]) := by
  refine ⟨?_, ?_, ?_⟩
  · intro jid parsed k h
    simp [replyActions_part000, h]
  · intro k hk
    have h1 := scaled_rand_lt k (20000 - 10000 + 1) hk (by norm_num)
    have h2 := scaled_rand_lt k 11000 hk (by norm_num)
    have h3 := scaled_rand_lt k 10000 hk (by norm_num)
    unfold delay_part000 delay_part001 delay_indexB
    generalize k * (20000 - 10000 + 1) / RAND_DENOM = a at h1 ⊢
    generalize k * 11000 / RAND_DENOM = b at h2 ⊢
    generalize k * 10000 / RAND_DENOM = c at h3 ⊢
    norm_num at h1
    omega
  · intro jid parsed h
    simp [replyActions_indexA, h]

/-- Witness instantiating C4_amended_delay_window at a concrete reply body and
the draw k = 0. -/
theorem C4_amended_delay_window_witness :
    jsonTruthy (extractReply_part000 (some (.obj [("reply", .str "hi")]))) = true ∧
    (0 : Nat) < RAND_DENOM ∧
    replyActions_part000 "111@c.us" (some (.obj [("reply", .str "hi")])) 0
      = [.send "111@c.us"
          ((extractReply_part000 (some (.obj [("reply", .str "hi")]))).getD .null)
          (delay_part000 0)] ∧
    10000 ≤ delay_part000 0 ∧ delay_part000 0 ≤ 20000 := by
  have hk : (0 : Nat) < RAND_DENOM := by
    unfold RAND_DENOM
    positivity
  have hb := (C4_amended_delay_window.2.1 0 hk).1
  exact ⟨rfl, hk,
    C4_amended_delay_window.1 "111@c.us" (some (.obj [("reply", .str "hi")])) 0 rfl,
    hb.1, hb.2⟩

/-- C5 counterexample: for the parsed sequence body [{"reply":"hi"}] the three
unwrapping variants extract "hi", but the second index.js variant (whose lines
the claim cites) never unwraps a sequence: it extracts nothing and sends
nothing — the first element is not used. -/
theorem C5_counterexample :
    extractReply_part000 (some (.arr [.obj [("reply", .str "hi")]]))
      = some (.str "hi") ∧
    extractReply_indexB (some (.arr [.obj [("reply", .str "hi")]])) = none ∧
    replyActions_indexB "111@c.us" (some (.arr [.obj [("reply", .str "hi")]])) 0
      = [] := by
  refine ⟨rfl, rfl, rfl⟩

/-- C5 amended: the variants that unwrap (part_000/part_002, part_001, first
index.js variant) use the first element of a sequence body; the second
index.js variant does not unwrap, and a sequence body yields no reply at all.
Both the capitalized and lowercase key spellings are accepted on object bodies
(modulo the truthiness quirk of the variants that chain with ||: an empty
string under the first-tried key falls through); absence of both keys yields
no reply and hence no send — a silent normal outcome. -/
theorem C5_amended_response_parsing :
    (∀ (fs : List (String × JsVal)) (rest : List JsVal),
      extractReply_part000 (some (.arr (.obj fs :: rest)))
        = extractReply_part000 (some (.obj fs))) ∧
    (∀ s : String,
      extractReply_part000 (some (.obj [("reply", .str s)])) = some (.str s) ∧
      extractReply_part000 (some (.obj [("Reply", .str s)])) = some (.str s) ∧
      extractReply_part001 (some (.obj [("reply", .str s)])) = some (.str s) ∧
      (s.isEmpty = false →
        extractReply_part001 (some (.obj [("Reply", .str s)])) = some (.str s)) ∧
      (s.isEmpty = false →
        extractReply_indexB (some (.obj [("reply", .str s)])) = some (.str s)) ∧
      extractReply_indexB (some (.obj [("Reply", .str s)])) = some (.str s)) ∧
    (∀ es : List JsVal, extractReply_indexB (some (.arr es)) = none) ∧
    (∀ fs : List (String × JsVal),
      jsonLookup fs "reply" = none → jsonLookup fs "Reply" = none →
      extractReply_part000 (some (.obj fs)) = none) ∧
    (∀ (jid : String) (parsed : Option JsVal) (k : Nat),
      jsonTruthy (extractReply_part000 parsed) = false →
      replyActions_part000 jid parsed k = []) := by
  refine ⟨?_, ?_, ?_, ?_, ?_⟩
  · intro fs rest
    rfl
  · intro s
    refine ⟨?_, ?_, ?_, ?_, ?_, ?_⟩
    · simp [extractReply_part000, unwrapSeq, jsGetField, jsonLookup, jsonNullish]
    · simp [extractReply_part000, unwrapSeq, jsGetField, jsonLookup, jsonNullish]
    · simp [extractReply_part001, unwrapSeq, jsGetField, jsonLookup, jsonTruthy]
    · intro hs
      simp [extractReply_part001, unwrapSeq, jsGetField, jsonLookup, jsonTruthy, hs]
    · intro hs
      simp [extractReply_indexB, jsGetField, jsonLookup, jsonTruthy, hs]
    · simp [extractReply_indexB, jsGetField, jsonLookup, jsonTruthy]
  · intro es
    rfl
  · intro fs h1 h2
    simp [extractReply_part000, unwrapSeq, jsGetField, h1, h2, jsonNullish]
  · intro jid parsed k h
    simp [replyActions_part000, h]

/-- Witness instantiating C5_amended_response_parsing at concrete bodies. -/
theorem C5_amended_response_parsing_witness :
    extractReply_part000 (some (.arr [.obj [("Reply", .str "ok")]]))
      = extractReply_part000 (some (.obj [("Reply", .str "ok")])) ∧
    extractReply_part000 (some (.obj [("Reply", .str "ok")])) = some (.str "ok") ∧
    ("ok" : String).isEmpty = false ∧
    extractReply_indexB (some (.obj [("reply", .str "ok")])) = some (.str "ok") ∧
    jsonLookup ([] : List (String × JsVal)) "reply" = none ∧
    extractReply_part000 (some (.obj [])) = none :=
  ⟨C5_amended_response_parsing.1 [("Reply", .str "ok")] [],
   (C5_amended_response_parsing.2.1 "ok").2.1,
   by decide,
   ((C5_amended_response_parsing.2.1 "ok").2.2.2.2.1 (by decide)),
   rfl,
   C5_amended_response_parsing.2.2.2.1 [] rfl rfl⟩

/-! ## The index.js second variant batch handler (C9)

Its messages.upsert loop (lines 302-345) differs from the others: the guard
`if (!msg.message || msg.key.fromMe) return;` sits inside the for-loop, so a
payload-less or self-originated message ends the whole handler instead of
skipping to the next message; there is also no empty-text check and no dedup
window in this variant. -/

/-- First-occurrence replacement, models JS String.replace with a string
pattern (which replaces only the first occurrence). -/
def replaceFirstList (pat repl : List Char) : List Char → List Char
  | [] => []
  | a :: rest =>
    if pat.isPrefixOf (a :: rest) then repl ++ (a :: rest).drop pat.length
    else a :: replaceFirstList pat repl rest

def replaceFirst (s pat repl : String) : String :=
  String.mk (replaceFirstList pat.toList repl.toList s.toList)

/-- Everything strictly before the first occurrence of `pat`. -/
def beforeSub (pat : List Char) : List Char → List Char
  | [] => []
  | a :: rest =>
    if pat.isPrefixOf (a :: rest) then []
    else a :: beforeSub pat rest

/-- Models s.replace(/@lid.*\x2f, "@c.us"): the first "@lid" and everything
after it replaced by "@c.us". -/
def replaceLidTail (s : String) : String :=
  if containsSub s "@lid" then String.mk (beforeSub "@lid".toList s.toList) ++ "@c.us"
  else s

/-- index.js second variant lines 312-316: replace "@s.whatsapp.net" with
"@c.us", then the /@lid.*\x2f tail; group jids skipped. -/
def normalizeJid_indexB (jid : String) : String :=
  if strEndsWith jid "@g.us" then jid
  else replaceLidTail (replaceFirst jid "@s.whatsapp.net" "@c.us")

/-- The whole messages.upsert handler of the index.js second variant over a
delivered batch: each admitted message relays a (from, message) pair; a
payload-less or self-originated message executes `return`, ending the entire
handler and discarding every later message of the batch. -/
def processBatch_indexB : List WAMessage → List (String × String)
  | [] => []
  | msg :: rest =>
    match msg.message with
    | none => []
    | some content =>
      if msg.key.fromMe then []
      else (normalizeJid_indexB msg.key.remoteJid, extractText content)
            :: processBatch_indexB rest

/-- C9: in the index.js second variant, a message with no payload or
originated by this session exits the handler entirely, so the batch result
stops at the good prefix: whatever follows the bad message contributes
nothing, and a batch starting with a bad message relays nothing at all. -/
theorem C9_return_ends_batch (pre : List WAMessage) (bad : WAMessage)
    (rest : List WAMessage)
    (hpre : ∀ m ∈ pre, m.message ≠ none ∧ m.key.fromMe = false)
    (hbad : bad.message = none ∨ bad.key.fromMe = true) :
    processBatch_indexB (pre ++ bad :: rest) = processBatch_indexB pre ∧
    processBatch_indexB (bad :: rest) = [] := by
  have hstop : ∀ rest2 : List WAMessage, processBatch_indexB (bad :: rest2) = [] := by
    intro rest2
    cases hbad with
    | inl h => simp [processBatch_indexB, h]
    | inr h =>
      cases hm : bad.message with
      | none => simp [processBatch_indexB, hm]
      | some c => simp [processBatch_indexB, hm, h]
  refine ⟨?_, hstop rest⟩
  induction pre with
  | nil => simpa using hstop rest
  | cons m pre ih =>
    obtain ⟨hmsg, hme⟩ := hpre m (by simp)
    cases hc : m.message with
    | none => exact absurd hc hmsg
    | some c =>
      have ih2 := ih (fun x hx => hpre x (by simp [hx]))
      simp [processBatch_indexB, hc, hme, ih2]

/-- A self-originated echo message. -/
def echoMsg : WAMessage :=
  { key := { id := "E1", remoteJid := "111@s.whatsapp.net", fromMe := true,
             senderPn := none, participant := none },
    message := some { conversation := some "yo", extendedTextMessageText := none } }

/-- Witness instantiating C9_return_ends_batch on a concrete three-message
batch: good, echo, good. -/
theorem C9_return_ends_batch_witness :
    processBatch_indexB ([mkTextMsg "g1"] ++ echoMsg :: [mkTextMsg "g2"])
      = processBatch_indexB [mkTextMsg "g1"] ∧
    processBatch_indexB (echoMsg :: [mkTextMsg "g2"]) = [] :=
  C9_return_ends_batch [mkTextMsg "g1"] echoMsg [mkTextMsg "g2"]
    (by
      intro m hm
      simp only [List.mem_singleton] at hm
      subst hm
      exact ⟨by simp [mkTextMsg], rfl⟩)
    (Or.inr rfl)

/-! ## Credential sync (C8)

The filesystem is modelled as the auth-folder listing (name and local
modification marker per file); the upload effect of a sync call is the list of
names it uploads. -/

structure AuthFile where
  name : String
  mtimeMs : Nat
deriving DecidableEq

/-- index.js second variant lines 237-257: despite the header comment "UPLOAD
ONLY IF FILE UPDATED", the function reads every file of the auth folder and
uploads each one with upsert, unconditionally — local modification markers are
never consulted and no name-to-marker index exists. -/
def uploadUpdatedFiles (folder : List AuthFile) : List String :=
  folder.map (fun f => f.name)

/-- part_001 lines 56-66: uploads exactly the names handed to it,
unconditionally (the call site at line 85-86 hands it Object.keys(state.creds)
on every creds.update event, not a set of changed files). -/
def uploadUpdatedFiles_part001 (changedFiles : List String) : List String :=
  changedFiles

def lookupMarker : List (String × Nat) → String → Option Nat
  | [], _ => none
  | (n, t) :: rest, name => if n = name then some t else lookupMarker rest name

def setMarker : List (String × Nat) → String → Nat → List (String × Nat)
  | [], name, t => [(name, t)]
  | (n, u) :: rest, name, t =>
    if n = name then (n, t) :: rest else (n, u) :: setMarker rest name t

/-- The incremental sync policy exactly as the design document words it:
upload only blobs whose local modification marker is newer than the last
recorded marker for that name, advancing the marker after each (successful)
upload. Returns the uploaded names and the updated marker index. -/
def specIncrementalSyncFrom (markers : List (String × Nat)) :
    List AuthFile → List String × List (String × Nat)
  | [] => ([], markers)
  | f :: rest =>
    let newer := match lookupMarker markers f.name with
      | none => true
      | some t => decide (t < f.mtimeMs)
    if newer then
      let step := specIncrementalSyncFrom (setMarker markers f.name f.mtimeMs) rest
      (f.name :: step.1, step.2)
    else specIncrementalSyncFrom markers rest

def c8Folder : List AuthFile := [{ name := "creds.json", mtimeMs := 1000 }]

/-- C8 evaluated at the failing input: with a single unchanged auth file, the
code re-uploads it on every call — a second sync with no local changes still
performs one upload, not zero — whereas the documented incremental policy
uploads it the first time and nothing the second time. -/
theorem C8_second_sync_uploads_again :
    uploadUpdatedFiles c8Folder = ["creds.json"] ∧
    uploadUpdatedFiles c8Folder ≠ [] ∧
    uploadUpdatedFiles_part001 ["creds.json"] = ["creds.json"] ∧
    (specIncrementalSyncFrom [] c8Folder).1 = ["creds.json"] ∧
    (specIncrementalSyncFrom (specIncrementalSyncFrom [] c8Folder).2 c8Folder).1
      = [] := by
  refine ⟨rfl, by decide, rfl, rfl, rfl⟩
